import Mathlib

/-!
Shallow embedding of `pcs_detection/include/pcs_detection/utils.h`:
point-cloud / image-pair conversion helpers (`cloudToImage`, `imageToCloud`),
the elementwise mask helper (`applyMask`) and the OpenCV type-name helper
(`type2str`), together with proofs of the specified properties.

Modelling conventions:
  * C++ `float` / `double` coordinate values are modelled by `ℚ` (an exact
    numeric carrier; the conversions only copy coordinate values, so the
    properties of interest are carrier-independent, and `ℚ` keeps every
    definition executable).
  * 8-bit colour channels (`uint8_t`, `cv::Vec3b`) are modelled by `Nat`
    with explicit `< 256` bounds / `% 256` reductions where the C++ types
    guarantee byte range.
  * `cv::Mat` grids become structures carrying `rows`, `cols` and a
    row-major list of rows; out-of-range access yields a default value,
    mirroring the fact that in-contract accesses are always in range.
  * the C++ `assert`s guarding each conversion become explicit error
    returns (`Except`), using the error taxonomy of the specification
    (`DegenerateCloud`, `DimensionOverflow`, `ShapeMismatch`).
-/

namespace PcsDetection

/-- `pcl::PCLHeader`: sequence number, timestamp, frame id. -/
structure Header where
  seq : Nat
  stamp : Nat
  frame_id : String
deriving DecidableEq

/-- `pcl::PointXYZRGB`: float coordinates and three 8-bit colour channels
(`r`, `g`, `b` alias bytes 2, 1, 0 of the packed `rgb` field). -/
@[ext]
structure Point where
  x : ℚ
  y : ℚ
  z : ℚ
  r : Nat
  g : Nat
  b : Nat
deriving DecidableEq

/-- Default-constructed point (used as the out-of-range access default). -/
def defaultPoint : Point := ⟨0, 0, 0, 0, 0, 0⟩

/-- `pcl::PointCloud<pcl::PointXYZRGB>`: row-major points plus grid
dimensions, density flag and header. -/
structure Cloud where
  header : Header
  points : List Point
  width : Nat
  height : Nat
  isDense : Bool
deriving DecidableEq

/-- `cv::Mat` with 3 `CV_64F` channels: position grid, cell `(x, y, z)`. -/
structure PosGrid where
  rows : Nat
  cols : Nat
  data : List (List (ℚ × ℚ × ℚ))
deriving DecidableEq

/-- `cv::Mat` with 3 `CV_8U` channels: colour grid, cell in stored channel
order `(channel 0, channel 1, channel 2)`. -/
structure ColorGrid where
  rows : Nat
  cols : Nat
  data : List (List (Nat × Nat × Nat))
deriving DecidableEq

/-- Cell access `position_image.at<double>(y, x*3+c)`, c = 0,1,2 bundled. -/
def PosGrid.cell (gr : PosGrid) (row col : Nat) : ℚ × ℚ × ℚ :=
  (gr.data.getD row []).getD col (0, 0, 0)

/-- Cell access `color_image.at<cv::Vec3b>(cv::Point(x, y))`. -/
def ColorGrid.cell (gr : ColorGrid) (row col : Nat) : Nat × Nat × Nat :=
  (gr.data.getD row []).getD col (0, 0, 0)

/-- Error taxonomy for the assertion failures of the conversion functions. -/
inductive ConvError where
  | DegenerateCloud
  | DimensionOverflow
  | ShapeMismatch
deriving DecidableEq

/-- `std::numeric_limits<int>::max()`. -/
def intMax : Nat := 2 ^ 31 - 1

/-- The position image built by the loop of `cloudToImage`:
`position_image.at<double>(y, x*3+k) = cloud->points[y*cols + x].{x,y,z}`. -/
def positionImageOf (c : Cloud) : PosGrid :=
  { rows := c.height, cols := c.width,
    data := (List.range c.height).map fun row =>
      (List.range c.width).map fun col =>
        let p := c.points.getD (row * c.width + col) defaultPoint
        (p.x, p.y, p.z) }

/-- The colour image built by the loop of `cloudToImage`:
`color_image.at<Vec3b>(Point(x, y)) = Vec3b(p.b, p.g, p.r)`. -/
def colorImageOf (c : Cloud) : ColorGrid :=
  { rows := c.height, cols := c.width,
    data := (List.range c.height).map fun row =>
      (List.range c.width).map fun col =>
        let p := c.points.getD (row * c.width + col) defaultPoint
        (p.b, p.g, p.r) }

/-- `cloudToImage` (utils.h, lines 98–129).  The two `assert`s become
explicit errors: `assert(w != 1 || h != 1)` fails exactly on a 1×1 cloud
(`DegenerateCloud`); `assert(w < INT_MAX && h < INT_MAX)` guards the
`uint32 → int32` casts (`DimensionOverflow`). -/
def cloudToImage (c : Cloud) : Except ConvError (PosGrid × ColorGrid) :=
  if c.width = 1 ∧ c.height = 1 then
    Except.error ConvError.DegenerateCloud
  else if c.width < intMax ∧ c.height < intMax then
    Except.ok (positionImageOf c, colorImageOf c)
  else
    Except.error ConvError.DimensionOverflow

/-- `int32_t rgb = (r << 16) | (g << 8) | b` (utils.h, line 161). -/
def packRGB (r g b : Nat) : Nat := (r <<< 16) ||| (g <<< 8) ||| b

/-- The point built by the loop body of `imageToCloud`: coordinates from the
position cell, colour channels read in `(b, g, r)` stored order, packed as
`rgb` and reinterpreted into the point's colour field (whose `r`, `g`, `b`
bytes are bytes 2, 1, 0 of `rgb`). -/
def pixelPoint (color : ColorGrid) (position : PosGrid) (row col : Nat) : Point :=
  let pcell := position.cell row col
  let ccell := color.cell row col
  let r := ccell.2.2
  let g := ccell.2.1
  let b := ccell.1
  let rgb := packRGB r g b
  { x := pcell.1, y := pcell.2.1, z := pcell.2.2,
    r := (rgb >>> 16) % 256, g := (rgb >>> 8) % 256, b := rgb % 256 }

/-- The cloud built by `imageToCloud` after the shape assertions: points
pushed in row-major order (y outer, x inner), then
`height := rows`, `width := cols`, `is_dense := false`, header copied. -/
def cloudOf (color : ColorGrid) (position : PosGrid) (header : Header) : Cloud :=
  { header := header,
    points := (List.range color.rows).flatMap fun row =>
      (List.range color.cols).map fun col => pixelPoint color position row col,
    width := color.cols,
    height := color.rows,
    isDense := false }

/-- `imageToCloud` (utils.h, lines 138–171).  The two shape `assert`s
become a `ShapeMismatch` error. -/
def imageToCloud (color : ColorGrid) (position : PosGrid) (header : Header) :
    Except ConvError Cloud :=
  if color.rows = position.rows ∧ color.cols = position.cols then
    Except.ok (cloudOf color position header)
  else
    Except.error ConvError.ShapeMismatch

/-- `cv::Mat::mul`: elementwise product of two numeric grids (element type
modelled as `Int`, grids as row-major lists of rows). -/
def matMul (a m : List (List Int)) : List (List Int) :=
  a.zipWith (fun ra rm => ra.zipWith (· * ·) rm) m

/-- `applyMask` (utils.h, lines 83–87): writes
`masked_image = input_image.mul(mask)` and returns the success flag
`true` — there is no error branch. -/
def applyMask (input mask : List (List Int)) : Bool × List (List Int) :=
  (true, matMul input mask)

/-- An all-ones grid of the same shape as `a`. -/
def onesLike (a : List (List Int)) : List (List Int) :=
  a.map (List.map fun _ => 1)

/-- An all-zeros grid of the same shape as `a`. -/
def zerosLike (a : List (List Int)) : List (List Int) :=
  a.map (List.map fun _ => 0)

/-- `CV_MAT_DEPTH`: the depth tag is the low 3 bits of the type code. -/
def CV_MAT_DEPTH (t : Nat) : Nat := t % 8

/-- `CV_MAT_CN`: the channel count is bits 3–11 of the type code, plus 1. -/
def CV_MAT_CN (t : Nat) : Nat := t / 8 % 512 + 1

/-- `CV_MAKETYPE depth cn`: packs a depth tag and a channel count into one
OpenCV type code. -/
def CV_MAKETYPE (depth cn : Nat) : Nat := depth % 8 + (cn - 1) * 8

/-- `type2str` (utils.h, lines 42–81): switch over the depth tag, then
append `"C"` and the channel count. -/
def type2str (t : Nat) : String :=
  let r : String :=
    match CV_MAT_DEPTH t with
    | 0 => "8U"
    | 1 => "8S"
    | 2 => "16U"
    | 3 => "16S"
    | 4 => "32S"
    | 5 => "32F"
    | 6 => "64F"
    | _ => "User"
  r ++ "C" ++ toString (CV_MAT_CN t)

/-- Depth-tag table exactly as the specification states it: the seven known
tags map to their labels, any other value maps to `"User"`. -/
def depthLabel (depth : Nat) : String :=
  match depth with
  | 0 => "8U"
  | 1 => "8S"
  | 2 => "16U"
  | 3 => "16S"
  | 4 => "32S"
  | 5 => "32F"
  | 6 => "64F"
  | _ => "User"

/-! ### Helper lemmas about the grid/point plumbing -/

lemma map_range_getD {α : Type*} (g : Nat → α) (n i : Nat) (d : α) (h : i < n) :
    ((List.range n).map g).getD i d = g i := by
  rw [List.getD_eq_getElem?_getD, List.getElem?_map, List.getElem?_range h]
  rfl

lemma flatMap_range_map_length {α : Type*} (f : Nat → Nat → α) (R C : Nat) :
    ((List.range R).flatMap fun row => (List.range C).map (f row)).length = R * C := by
  induction R with
  | zero => simp
  | succ R ih =>
    rw [List.range_succ, List.flatMap_append, List.length_append, ih]
    simp only [List.flatMap_cons, List.flatMap_nil, List.append_nil, List.length_map,
      List.length_range]
    rw [Nat.succ_mul]

lemma flatMap_range_map_getElem? {α : Type*} (f : Nat → Nat → α) (R C row col : Nat)
    (hr : row < R) (hc : col < C) :
    ((List.range R).flatMap fun r0 => (List.range C).map (f r0))[row * C + col]? =
      some (f row col) := by
  induction R with
  | zero => omega
  | succ R ih =>
    rw [List.range_succ, List.flatMap_append]
    rcases Nat.lt_or_ge row R with h | h
    · have hlt : row * C + col < R * C := by
        have h1 : (row + 1) * C ≤ R * C := Nat.mul_le_mul_right C h
        have h2 : row * C + col < (row + 1) * C := by
          rw [Nat.succ_mul]; omega
        omega
      rw [List.getElem?_append_left (by rwa [flatMap_range_map_length])]
      exact ih h
    · have hrow : row = R := by omega
      subst hrow
      rw [List.getElem?_append_right (by rw [flatMap_range_map_length]; omega)]
      rw [flatMap_range_map_length]
      simp only [List.flatMap_cons, List.flatMap_nil, List.append_nil]
      rw [Nat.add_sub_cancel_left, List.getElem?_map, List.getElem?_range hc]
      rfl

lemma flatMap_range_map_getD {α : Type*} (f : Nat → Nat → α) (R C row col : Nat) (d : α)
    (hr : row < R) (hc : col < C) :
    ((List.range R).flatMap fun r0 => (List.range C).map (f r0)).getD (row * C + col) d =
      f row col := by
  rw [List.getD_eq_getElem?_getD, flatMap_range_map_getElem? f R C row col hr hc]
  rfl

lemma positionImageOf_cell (c : Cloud) (row col : Nat) (hr : row < c.height)
    (hc : col < c.width) :
    (positionImageOf c).cell row col =
      ((c.points.getD (row * c.width + col) defaultPoint).x,
       (c.points.getD (row * c.width + col) defaultPoint).y,
       (c.points.getD (row * c.width + col) defaultPoint).z) := by
  simp only [positionImageOf, PosGrid.cell]
  rw [map_range_getD _ _ _ _ hr, map_range_getD _ _ _ _ hc]

lemma colorImageOf_cell (c : Cloud) (row col : Nat) (hr : row < c.height)
    (hc : col < c.width) :
    (colorImageOf c).cell row col =
      ((c.points.getD (row * c.width + col) defaultPoint).b,
       (c.points.getD (row * c.width + col) defaultPoint).g,
       (c.points.getD (row * c.width + col) defaultPoint).r) := by
  simp only [colorImageOf, ColorGrid.cell]
  rw [map_range_getD _ _ _ _ hr, map_range_getD _ _ _ _ hc]

lemma cloudToImage_ok (c : Cloud) (h1 : ¬(c.width = 1 ∧ c.height = 1))
    (h2 : c.width < intMax) (h3 : c.height < intMax) :
    cloudToImage c = Except.ok (positionImageOf c, colorImageOf c) := by
  unfold cloudToImage
  rw [if_neg h1, if_pos ⟨h2, h3⟩]

lemma cloudOf_points_length (color : ColorGrid) (position : PosGrid) (hd : Header) :
    (cloudOf color position hd).points.length = color.rows * color.cols :=
  flatMap_range_map_length _ _ _

lemma cloudOf_points_getD (color : ColorGrid) (position : PosGrid) (hd : Header)
    (row col : Nat) (hr : row < color.rows) (hc : col < color.cols) :
    (cloudOf color position hd).points.getD (row * color.cols + col) defaultPoint =
      pixelPoint color position row col :=
  flatMap_range_map_getD _ _ _ _ _ _ hr hc

/-! ### Helper lemmas about colour packing -/

lemma packRGB_eq (r g b : Nat) (hg : g < 256) (hb : b < 256) :
    packRGB r g b = 65536 * r + 256 * g + b := by
  unfold packRGB
  rw [Nat.shiftLeft_eq, Nat.shiftLeft_eq, Nat.mul_comm r, Nat.mul_comm g]
  rw [← Nat.mul_add_lt_is_or (b := 2 ^ 8 * g) (i := 16) (by omega) r]
  have hsum : 2 ^ 16 * r + 2 ^ 8 * g = 2 ^ 8 * (2 ^ 8 * r + g) := by ring
  rw [hsum, ← Nat.mul_add_lt_is_or (b := b) (i := 8) (by omega) (2 ^ 8 * r + g)]
  ring

lemma packRGB_bytes (r g b : Nat) (hr : r < 256) (hg : g < 256) (hb : b < 256) :
    ((packRGB r g b) >>> 16) % 256 = r ∧ ((packRGB r g b) >>> 8) % 256 = g ∧
      (packRGB r g b) % 256 = b := by
  rw [packRGB_eq r g b hg hb, Nat.shiftRight_eq_div_pow, Nat.shiftRight_eq_div_pow]
  refine ⟨?_, ?_, ?_⟩ <;> · show _ = _; omega

lemma imageToCloud_ok (color : ColorGrid) (position : PosGrid) (hd : Header)
    (hr : color.rows = position.rows) (hc : color.cols = position.cols) :
    imageToCloud color position hd = Except.ok (cloudOf color position hd) := by
  unfold imageToCloud
  rw [if_pos ⟨hr, hc⟩]

lemma pixelPoint_of_images (c : Cloud) (row col : Nat) (hr : row < c.height)
    (hc : col < c.width)
    (hrB : (c.points.getD (row * c.width + col) defaultPoint).r < 256)
    (hgB : (c.points.getD (row * c.width + col) defaultPoint).g < 256)
    (hbB : (c.points.getD (row * c.width + col) defaultPoint).b < 256) :
    pixelPoint (colorImageOf c) (positionImageOf c) row col =
      c.points.getD (row * c.width + col) defaultPoint := by
  obtain ⟨e1, e2, e3⟩ := packRGB_bytes _ _ _ hrB hgB hbB
  unfold pixelPoint
  rw [colorImageOf_cell c row col hr hc, positionImageOf_cell c row col hr hc]
  show Point.mk _ _ _ _ _ _ = _
  rw [e1, e2, e3]

/-! ### Helper lemmas about the mask helper -/

lemma zipWith_mul_ones (l : List Int) :
    List.zipWith (· * ·) l (l.map fun _ => (1 : Int)) = l := by
  induction l with
  | nil => rfl
  | cons a t ih => simp only [List.map_cons, List.zipWith_cons_cons, mul_one, ih]

lemma zipWith_mul_zeros (l : List Int) :
    List.zipWith (· * ·) l (l.map fun _ => (0 : Int)) = l.map fun _ => (0 : Int) := by
  induction l with
  | nil => rfl
  | cons a t ih => simp only [List.map_cons, List.zipWith_cons_cons, mul_zero, ih]

lemma matMul_onesLike (a : List (List Int)) : matMul a (onesLike a) = a := by
  induction a with
  | nil => rfl
  | cons r t ih =>
    show List.zipWith _ (r :: t) (List.map _ (r :: t)) = r :: t
    rw [List.map_cons, List.zipWith_cons_cons, zipWith_mul_ones]
    congr 1

lemma matMul_zerosLike (a : List (List Int)) :
    matMul a (zerosLike a) = zerosLike a := by
  induction a with
  | nil => rfl
  | cons r t ih =>
    show List.zipWith _ (r :: t) (List.map _ (r :: t)) = List.map _ (r :: t)
    rw [List.map_cons, List.zipWith_cons_cons, zipWith_mul_zeros]
    congr 1

lemma matMul_getD (input mask : List (List Int)) (i j : Nat)
    (hi : i < input.length) (hi2 : i < mask.length)
    (hj : j < (input.getD i []).length) (hj2 : j < (mask.getD i []).length) :
    ((matMul input mask).getD i []).getD j 0 =
      (input.getD i []).getD j 0 * (mask.getD i []).getD j 0 := by
  have e1 : input.getD i [] = input[i] := List.getD_eq_getElem input [] hi
  have e2 : mask.getD i [] = mask[i] := List.getD_eq_getElem mask [] hi2
  have hjg : j < input[i].length := e1 ▸ hj
  have hjg2 : j < mask[i].length := e2 ▸ hj2
  have hrowlen : i < (matMul input mask).length := by
    unfold matMul
    rw [List.length_zipWith]
    omega
  have hrow : (matMul input mask).getD i [] =
      List.zipWith (· * ·) input[i] mask[i] := by
    rw [List.getD_eq_getElem _ _ hrowlen]
    exact List.getElem_zipWith
  have hjrow : j < (List.zipWith (· * ·) input[i] mask[i]).length := by
    rw [List.length_zipWith]
    omega
  rw [hrow, List.getD_eq_getElem _ _ hjrow, List.getElem_zipWith, e1, e2,
    List.getD_eq_getElem _ _ hjg, List.getD_eq_getElem _ _ hjg2]

/-! ### Concrete example inputs (used by the witnesses) -/

/-- A default-constructed header. -/
def defaultHeader : Header := ⟨0, 0, ""⟩

/-- The 2×2 structured cloud of the specification's end-to-end example. -/
def cloudTwoByTwo : Cloud :=
  { header := defaultHeader,
    points := [⟨0, 0, 0, 1, 2, 3⟩, ⟨1, 0, 0, 4, 5, 6⟩,
               ⟨0, 1, 0, 7, 8, 9⟩, ⟨1, 1, 0, 10, 11, 12⟩],
    width := 2, height := 2, isDense := true }

/-- A 2×2 cloud whose first point has colour `r=10, g=20, b=30`. -/
def cloudChannelOrder : Cloud :=
  { header := defaultHeader,
    points := [⟨0, 0, 0, 10, 20, 30⟩, ⟨1, 0, 0, 0, 0, 0⟩,
               ⟨0, 1, 0, 0, 0, 0⟩, ⟨1, 1, 0, 0, 0, 0⟩],
    width := 2, height := 2, isDense := true }

/-- A 1×2 cloud (width 1, height 2): not rejected by the degeneracy assert. -/
def cloudOneByTwo : Cloud :=
  { header := defaultHeader,
    points := [⟨0, 0, 0, 1, 2, 3⟩, ⟨0, 1, 0, 4, 5, 6⟩],
    width := 1, height := 2, isDense := true }

/-- A 10×10 colour grid (shape fields only matter for the mismatch check). -/
def colorTenByTen : ColorGrid := ⟨10, 10, []⟩

/-- A 10×9 position grid. -/
def posTenByNine : PosGrid := ⟨10, 9, []⟩

/-- A 1×1 colour grid holding the single pixel `(3, 2, 1)` in stored order. -/
def colorOne : ColorGrid := ⟨1, 1, [[(3, 2, 1)]]⟩

/-- A 1×1 position grid holding the single cell `(5, 6, 7)`. -/
def posOne : PosGrid := ⟨1, 1, [[(5, 6, 7)]]⟩

/-! ### Claim theorems -/

/-- C2 (counterexample): a 1×2 cloud has `width ≤ 1`, yet `cloudToImage`
succeeds and produces output instead of failing with `DegenerateCloud` —
the assertion `width != 1 || height != 1` only rejects 1×1 clouds. -/
theorem cloudToImage_width_one_succeeds :
    cloudToImage cloudOneByTwo =
      Except.ok (positionImageOf cloudOneByTwo, colorImageOf cloudOneByTwo) := rfl

/-- C2 (amended): `cloudToImage` fails with `DegenerateCloud` exactly when
`width = 1` and `height = 1`; clouds with `width ≤ 1` or `height ≤ 1` that
are not exactly 1×1 (such as 1×N and N×1 clouds) pass the degeneracy
check. -/
theorem cloudToImage_degenerate_iff (c : Cloud) :
    cloudToImage c = Except.error ConvError.DegenerateCloud ↔
      c.width = 1 ∧ c.height = 1 := by
  unfold cloudToImage
  split_ifs with h1 h2 <;> simp_all

/-- C3: for every cloud point, `cloudToImage` stores that point's colour in
the colour grid with channel 0 holding `b`, channel 1 holding `g` and
channel 2 holding `r`. -/
theorem cloudToImage_channel_order (c : Cloud) (hw : 1 < c.width) (hh : 1 < c.height)
    (hwM : c.width < intMax) (hhM : c.height < intMax) (row col : Nat)
    (hr : row < c.height) (hc : col < c.width) :
    ∃ pos color, cloudToImage c = Except.ok (pos, color) ∧
      color.cell row col = ((c.points.getD (row * c.width + col) defaultPoint).b,
        (c.points.getD (row * c.width + col) defaultPoint).g,
        (c.points.getD (row * c.width + col) defaultPoint).r) :=
  ⟨positionImageOf c, colorImageOf c, cloudToImage_ok c (by omega) hwM hhM,
    colorImageOf_cell c row col hr hc⟩

/-- C3 (witness): a point with `r=10, g=20, b=30` produces the pixel
channels `(30, 20, 10)`. -/
theorem cloudToImage_channel_order_witness :
    ∃ pos color, cloudToImage cloudChannelOrder = Except.ok (pos, color) ∧
      color.cell 0 0 = (30, 20, 10) := by
  obtain ⟨pos, color, h1, h2⟩ := cloudToImage_channel_order cloudChannelOrder
    (by decide) (by decide) (by decide) (by decide) 0 0 (by decide) (by decide)
  exact ⟨pos, color, h1, h2⟩

/-- C4: grids whose row counts or column counts differ make `imageToCloud`
fail with `ShapeMismatch`, producing no cloud. -/
theorem imageToCloud_shape_mismatch (color : ColorGrid) (position : PosGrid)
    (hd : Header) (h : color.rows ≠ position.rows ∨ color.cols ≠ position.cols) :
    imageToCloud color position hd = Except.error ConvError.ShapeMismatch := by
  unfold imageToCloud
  rw [if_neg]
  tauto

/-- C4 (witness): a 10×10 colour grid with a 10×9 position grid is rejected
with `ShapeMismatch`. -/
theorem imageToCloud_shape_mismatch_witness :
    imageToCloud colorTenByTen posTenByNine defaultHeader =
      Except.error ConvError.ShapeMismatch :=
  imageToCloud_shape_mismatch colorTenByTen posTenByNine defaultHeader
    (Or.inr (by decide))

/-- C5: for every cloud satisfying the preconditions, both output grids have
`rows = cloud.height` and `cols = cloud.width`, and every cell is written
from the point at the matching row-major index `row * width + col`. -/
theorem cloudToImage_shape (c : Cloud) (hw : 1 < c.width) (hh : 1 < c.height)
    (hwM : c.width < intMax) (hhM : c.height < intMax) :
    ∃ pos color, cloudToImage c = Except.ok (pos, color) ∧
      pos.rows = c.height ∧ pos.cols = c.width ∧
      color.rows = c.height ∧ color.cols = c.width ∧
      ∀ row col, row < c.height → col < c.width →
        pos.cell row col = ((c.points.getD (row * c.width + col) defaultPoint).x,
          (c.points.getD (row * c.width + col) defaultPoint).y,
          (c.points.getD (row * c.width + col) defaultPoint).z) ∧
        color.cell row col = ((c.points.getD (row * c.width + col) defaultPoint).b,
          (c.points.getD (row * c.width + col) defaultPoint).g,
          (c.points.getD (row * c.width + col) defaultPoint).r) := by
  refine ⟨positionImageOf c, colorImageOf c, cloudToImage_ok c (by omega) hwM hhM,
    rfl, rfl, rfl, rfl, ?_⟩
  intro row col hr hc
  exact ⟨positionImageOf_cell c row col hr hc, colorImageOf_cell c row col hr hc⟩

/-- C5 (witness): the shape invariant evaluated on the concrete 2×2 example
cloud. -/
theorem cloudToImage_shape_witness :
    ∃ pos color, cloudToImage cloudTwoByTwo = Except.ok (pos, color) ∧
      pos.rows = 2 ∧ pos.cols = 2 ∧ color.rows = 2 ∧ color.cols = 2 ∧
      ∀ row col, row < 2 → col < 2 →
        pos.cell row col =
          ((cloudTwoByTwo.points.getD (row * 2 + col) defaultPoint).x,
           (cloudTwoByTwo.points.getD (row * 2 + col) defaultPoint).y,
           (cloudTwoByTwo.points.getD (row * 2 + col) defaultPoint).z) ∧
        color.cell row col =
          ((cloudTwoByTwo.points.getD (row * 2 + col) defaultPoint).b,
           (cloudTwoByTwo.points.getD (row * 2 + col) defaultPoint).g,
           (cloudTwoByTwo.points.getD (row * 2 + col) defaultPoint).r) :=
  cloudToImage_shape cloudTwoByTwo (by decide) (by decide) (by decide) (by decide)

/-- C7: for every valid input pair, the returned cloud has
`width = cols`, `height = rows`, `isDense = false` unconditionally, and
carries the passed-in header through unchanged. -/
theorem imageToCloud_metadata (color : ColorGrid) (position : PosGrid) (hd : Header)
    (hr : color.rows = position.rows) (hc : color.cols = position.cols) :
    ∃ c, imageToCloud color position hd = Except.ok c ∧
      c.width = color.cols ∧ c.height = color.rows ∧
      c.isDense = false ∧ c.header = hd :=
  ⟨cloudOf color position hd, imageToCloud_ok color position hd hr hc,
    rfl, rfl, rfl, rfl⟩

/-- C7 (witness): the metadata property evaluated on concrete 1×1 grids
whose position cell is finite, still yielding `isDense = false`. -/
theorem imageToCloud_metadata_witness :
    ∃ c, imageToCloud colorOne posOne defaultHeader = Except.ok c ∧
      c.width = 1 ∧ c.height = 1 ∧ c.isDense = false ∧ c.header = defaultHeader :=
  imageToCloud_metadata colorOne posOne defaultHeader (by decide) (by decide)

/-- C6: for every pixel, `imageToCloud` reads the colour cell in `(b, g, r)`
stored order and derives the point's colour from the packed value
`rgb = (r <<< 16) ||| (g <<< 8) ||| b`; for byte-ranged channels the packed
value's bits 16–23 equal `r`, bits 8–15 equal `g` and bits 0–7 equal `b`. -/
theorem imageToCloud_packed_color (color : ColorGrid) (position : PosGrid)
    (hd : Header) (hrows : color.rows = position.rows)
    (hcols : color.cols = position.cols) (row col : Nat)
    (hr : row < color.rows) (hc : col < color.cols)
    (hbB : (color.cell row col).1 < 256) (hgB : (color.cell row col).2.1 < 256)
    (hrB : (color.cell row col).2.2 < 256) :
    ∃ c, imageToCloud color position hd = Except.ok c ∧
      (c.points.getD (row * color.cols + col) defaultPoint).r =
        (packRGB (color.cell row col).2.2 (color.cell row col).2.1
          (color.cell row col).1 >>> 16) % 256 ∧
      (c.points.getD (row * color.cols + col) defaultPoint).g =
        (packRGB (color.cell row col).2.2 (color.cell row col).2.1
          (color.cell row col).1 >>> 8) % 256 ∧
      (c.points.getD (row * color.cols + col) defaultPoint).b =
        packRGB (color.cell row col).2.2 (color.cell row col).2.1
          (color.cell row col).1 % 256 ∧
      (packRGB (color.cell row col).2.2 (color.cell row col).2.1
          (color.cell row col).1 >>> 16) % 256 = (color.cell row col).2.2 ∧
      (packRGB (color.cell row col).2.2 (color.cell row col).2.1
          (color.cell row col).1 >>> 8) % 256 = (color.cell row col).2.1 ∧
      packRGB (color.cell row col).2.2 (color.cell row col).2.1
          (color.cell row col).1 % 256 = (color.cell row col).1 := by
  obtain ⟨e1, e2, e3⟩ := packRGB_bytes _ _ _ hrB hgB hbB
  refine ⟨cloudOf color position hd, imageToCloud_ok color position hd hrows hcols,
    ?_, ?_, ?_, e1, e2, e3⟩ <;>
    rw [cloudOf_points_getD color position hd row col hr hc] <;> rfl

/-- C6 (witness): the packed-colour property evaluated on the concrete 1×1
grid whose pixel holds `(b, g, r) = (3, 2, 1)`. -/
theorem imageToCloud_packed_color_witness :
    ∃ c, imageToCloud colorOne posOne defaultHeader = Except.ok c ∧
      (c.points.getD 0 defaultPoint).r = (packRGB 1 2 3 >>> 16) % 256 ∧
      (c.points.getD 0 defaultPoint).g = (packRGB 1 2 3 >>> 8) % 256 ∧
      (c.points.getD 0 defaultPoint).b = packRGB 1 2 3 % 256 ∧
      (packRGB 1 2 3 >>> 16) % 256 = 1 ∧
      (packRGB 1 2 3 >>> 8) % 256 = 2 ∧
      packRGB 1 2 3 % 256 = 3 :=
  imageToCloud_packed_color colorOne posOne defaultHeader (by decide) (by decide)
    0 0 (by decide) (by decide) (by decide) (by decide) (by decide)

/-- C1: for every structured cloud with `width > 1` and `height > 1` (and
byte-ranged colours, as the C++ `uint8_t` fields guarantee), `cloudToImage`
followed by `imageToCloud` yields a cloud whose per-point position and
colour fields equal those of the original, point for point in row-major
order. -/
theorem cloud_image_roundtrip (c : Cloud) (hw : 1 < c.width) (hh : 1 < c.height)
    (hwM : c.width < intMax) (hhM : c.height < intMax)
    (hlen : c.points.length = c.width * c.height)
    (hbytes : ∀ p ∈ c.points, p.r < 256 ∧ p.g < 256 ∧ p.b < 256) (hd : Header) :
    ∃ c', cloudToImage c = Except.ok (positionImageOf c, colorImageOf c) ∧
      imageToCloud (colorImageOf c) (positionImageOf c) hd = Except.ok c' ∧
      c'.points.length = c.points.length ∧
      ∀ i, i < c.points.length →
        c'.points.getD i defaultPoint = c.points.getD i defaultPoint := by
  refine ⟨cloudOf (colorImageOf c) (positionImageOf c) hd,
    cloudToImage_ok c (by omega) hwM hhM,
    imageToCloud_ok _ _ _ rfl rfl, ?_, ?_⟩
  · rw [cloudOf_points_length, hlen]
    exact Nat.mul_comm _ _
  · intro i hi
    have hw0 : 0 < c.width := by omega
    have hcol : i % c.width < c.width := Nat.mod_lt _ hw0
    have hrow : i / c.width < c.height := by
      rw [Nat.div_lt_iff_lt_mul hw0]
      rw [hlen, Nat.mul_comm] at hi
      exact hi
    have hidx : i / c.width * c.width + i % c.width = i := by
      rw [Nat.mul_comm]
      exact Nat.div_add_mod i c.width
    have hmem : c.points.getD i defaultPoint ∈ c.points := by
      rw [List.getD_eq_getElem _ _ hi]
      exact List.getElem_mem hi
    obtain ⟨hrB, hgB, hbB⟩ := hbytes _ hmem
    calc (cloudOf (colorImageOf c) (positionImageOf c) hd).points.getD i defaultPoint
        = (cloudOf (colorImageOf c) (positionImageOf c) hd).points.getD
            (i / c.width * c.width + i % c.width) defaultPoint := by rw [hidx]
      _ = pixelPoint (colorImageOf c) (positionImageOf c)
            (i / c.width) (i % c.width) :=
          cloudOf_points_getD _ _ _ _ _ hrow hcol
      _ = c.points.getD (i / c.width * c.width + i % c.width) defaultPoint := by
          apply pixelPoint_of_images c _ _ hrow hcol <;> rw [hidx] <;> assumption
      _ = c.points.getD i defaultPoint := by rw [hidx]

/-- C1 (witness): the round trip evaluated on the specification's concrete
2×2 example cloud. -/
theorem cloud_image_roundtrip_witness :
    ∃ c', cloudToImage cloudTwoByTwo =
        Except.ok (positionImageOf cloudTwoByTwo, colorImageOf cloudTwoByTwo) ∧
      imageToCloud (colorImageOf cloudTwoByTwo) (positionImageOf cloudTwoByTwo)
        defaultHeader = Except.ok c' ∧
      c'.points.length = cloudTwoByTwo.points.length ∧
      ∀ i, i < cloudTwoByTwo.points.length →
        c'.points.getD i defaultPoint = cloudTwoByTwo.points.getD i defaultPoint :=
  cloud_image_roundtrip cloudTwoByTwo (by decide) (by decide) (by decide)
    (by decide) (by decide) (by decide) defaultHeader

/-- A concrete 2×2 input grid for the mask witnesses. -/
def gridInput : List (List Int) := [[1, 2], [3, 4]]

/-- A concrete 2×2 mask grid. -/
def gridMask : List (List Int) := [[5, 6], [7, 8]]

/-- C8: for identically-shaped numeric grids, `applyMask` produces the
elementwise product; the all-ones mask is an identity and the all-zeros mask
yields the all-zero grid of the same shape. -/
theorem applyMask_elementwise (input mask : List (List Int))
    (hlen : input.length = mask.length)
    (hrows : ∀ i, i < input.length →
      (input.getD i []).length = (mask.getD i []).length) :
    (∀ i j, i < input.length → j < (input.getD i []).length →
      ((applyMask input mask).2.getD i []).getD j 0 =
        (input.getD i []).getD j 0 * (mask.getD i []).getD j 0) ∧
    (applyMask input (onesLike input)).2 = input ∧
    (applyMask input (zerosLike input)).2 = zerosLike input := by
  refine ⟨?_, matMul_onesLike input, matMul_zerosLike input⟩
  intro i j hi hj
  exact matMul_getD input mask i j hi (by omega) hj (by rw [← hrows i hi]; exact hj)

/-- C8 (witness): the mask contract evaluated on concrete 2×2 grids. -/
theorem applyMask_elementwise_witness :
    ((applyMask gridInput gridMask).2.getD 0 []).getD 1 0 = (2 : Int) * 6 ∧
    (applyMask gridInput (onesLike gridInput)).2 = gridInput ∧
    (applyMask gridInput (zerosLike gridInput)).2 = zerosLike gridInput := by
  obtain ⟨h1, h2, h3⟩ := applyMask_elementwise gridInput gridMask (by decide)
    (by decide)
  exact ⟨h1 0 1 (by decide) (by decide), h2, h3⟩

/-- C10: `applyMask` returns the success flag `true` for every pair of
inputs — it has no error branch, even for mismatched shapes. -/
theorem applyMask_always_true (input mask : List (List Int)) :
    (applyMask input mask).1 = true := rfl

/-- C9: `type2str` formats every type code built from a depth tag below 8
and a channel count as the depth label of the fixed table followed by `"C"`
and the channel count (tag 7, the only tag outside the table, yields
`"User"`); it never fails. -/
theorem type2str_table (depth cn : Nat) (hdep : depth < 8) (h1 : 1 ≤ cn)
    (h2 : cn ≤ 512) :
    type2str (CV_MAKETYPE depth cn) = depthLabel depth ++ "C" ++ toString cn := by
  have e1 : CV_MAT_DEPTH (CV_MAKETYPE depth cn) = depth := by
    unfold CV_MAT_DEPTH CV_MAKETYPE
    omega
  have e2 : CV_MAT_CN (CV_MAKETYPE depth cn) = cn := by
    unfold CV_MAT_CN CV_MAKETYPE
    omega
  unfold type2str
  rw [e1, e2]
  interval_cases depth <;> rfl

/-- C9 (witness): 8-bit-unsigned with 3 channels gives `"8UC3"`,
64-bit-float with 1 channel gives `"64FC1"`, and the out-of-table depth
tag 7 gives a `"User"` label. -/
theorem type2str_table_witness :
    type2str (CV_MAKETYPE 0 3) = "8UC3" ∧
    type2str (CV_MAKETYPE 6 1) = "64FC1" ∧
    type2str (CV_MAKETYPE 7 2) = "UserC2" :=
  ⟨by rw [type2str_table 0 3 (by decide) (by decide) (by decide)]; rfl,
   by rw [type2str_table 6 1 (by decide) (by decide) (by decide)]; rfl,
   by rw [type2str_table 7 2 (by decide) (by decide) (by decide)]; rfl⟩

end PcsDetection
